import Mathlib

/-!
Shallow embedding of `src/server.js` (Mackinac ship tracker backend).

The server keeps vessel transit records in a MongoDB collection
(`shipsCollection`).  We model a collection as a `List ShipRecord`
(MongoDB `updateOne` touches the first matching document in natural
order), and the possibly-unattached collection handle as an
`Option (List ShipRecord)` (the JS global `shipsCollection` is `null`
until MongoDB connects).  Timestamps (`new Date()`) are modelled as
`Int` milliseconds supplied explicitly by the caller.
-/

namespace ShipTracker

/-- A persisted vessel transit record, mirroring the document shape written
by `saveShipToDatabase` / `markShipAsPassed` in `src/server.js`.
`passedBridgeTime` is `none` for a document that has never been marked
passed (the upsert insert path does not set this field at all). -/
structure ShipRecord where
  mmsi : Nat
  name : String
  type : String
  destination : Option String
  dimensions : Option String
  firstSeen : Int
  lastSeen : Int
  direction : Option Int
  maxSpeed : Int
  passedBridge : Bool
  passedBridgeTime : Option Int
deriving DecidableEq, Repr

/-- The `shipData` argument of `saveShipToDatabase`: fields extracted from a
position report (see the `aisConnection.on('message')` handler).  JS `null` /
`undefined` values are `none`; the `|| default` coalescing done inside
`saveShipToDatabase` is modelled with `Option.getD`. -/
structure ShipData where
  mmsi : Nat
  name : String
  type : Option String
  destination : Option String
  dimensions : Option String
  speed : Option Int
  direction : Option Int
deriving DecidableEq, Repr

/-- The MongoDB filter `{ mmsi: <mmsi>, passedBridge: false }` used by both
`saveShipToDatabase` and `markShipAsPassed`: matches the open record for the
given MMSI. -/
def openFilter (mmsi : Nat) (r : ShipRecord) : Bool :=
  r.mmsi == mmsi && r.passedBridge == false

/-- The JS local `shipRecord` object built at the top of
`saveShipToDatabase` (`firstSeen`/`lastSeen` are fresh `new Date()`,
`type: shipData.type || 'Unknown'`, `maxSpeed: shipData.speed || 0`,
`passedBridge: false`, `passedBridgeTime: null`). -/
def mkShipRecord (sd : ShipData) (now : Int) : ShipRecord :=
  { mmsi := sd.mmsi
    name := sd.name
    type := sd.type.getD "Unknown"
    destination := sd.destination
    dimensions := sd.dimensions
    firstSeen := now
    lastSeen := now
    direction := sd.direction
    maxSpeed := sd.speed.getD 0
    passedBridge := false
    passedBridgeTime := none }

/-- The `$set` clause of the `updateOne` in `saveShipToDatabase`:
`lastSeen = new Date()`, `direction = shipData.direction`,
`maxSpeed = Math.max(shipData.speed || 0, shipRecord.maxSpeed)`.
Note that `shipRecord.maxSpeed` is the *freshly built* record's field
(itself `shipData.speed || 0`), not the previously stored value. -/
def applySetUpdate (sd : ShipData) (now : Int) (r : ShipRecord) : ShipRecord :=
  { r with
    lastSeen := now
    direction := sd.direction
    maxSpeed := max (sd.speed.getD 0) (mkShipRecord sd now).maxSpeed }

/-- The document inserted by the upsert when no open record matches:
MongoDB builds it from the filter's equality fields plus `$setOnInsert`
(`mmsi`, `name`, `type`, `destination`, `dimensions`, `firstSeen`,
`passedBridge: false`) and then applies `$set`.  `passedBridgeTime` is
absent, modelled as `none`. -/
def insertDoc (sd : ShipData) (now : Int) : ShipRecord :=
  applySetUpdate sd now (mkShipRecord sd now)

/-- MongoDB `collection.updateOne(filter, update, { upsert })`: updates the
first matching document in place; when nothing matches, inserts `ins`
(when present: the upsert case) at the end of the collection. -/
def updateOne (filter : ShipRecord → Bool) (upd : ShipRecord → ShipRecord)
    (ins : Option ShipRecord) : List ShipRecord → List ShipRecord
  | [] => ins.toList
  | r :: rs => if filter r then upd r :: rs else r :: updateOne filter upd ins rs

/-- The `updateOne … { upsert: true }` call inside `saveShipToDatabase`,
acting on an attached collection. -/
def saveShipUpdate (sd : ShipData) (now : Int) (coll : List ShipRecord) :
    List ShipRecord :=
  updateOne (openFilter sd.mmsi) (applySetUpdate sd now) (some (insertDoc sd now)) coll

/-- The `$set` clause of `markShipAsPassed`:
`passedBridge = true`, `passedBridgeTime = new Date()`. -/
def setPassedUpdate (now : Int) (r : ShipRecord) : ShipRecord :=
  { r with passedBridge := true, passedBridgeTime := some now }

/-- The `updateOne` call inside `markShipAsPassed` (no upsert), acting on an
attached collection. -/
def markPassedUpdate (mmsi : Nat) (now : Int) (coll : List ShipRecord) :
    List ShipRecord :=
  updateOne (openFilter mmsi) (setPassedUpdate now) none coll

/-- `saveShipToDatabase(shipData)`: returns immediately when
`shipsCollection` is `null` (`if (!shipsCollection) return;`), otherwise
performs the upsert. -/
def saveShipToDatabase (sd : ShipData) (now : Int) :
    Option (List ShipRecord) → Option (List ShipRecord)
  | none => none
  | some coll => some (saveShipUpdate sd now coll)

/-- `markShipAsPassed(mmsi, name)`: returns immediately when
`shipsCollection` is `null`, otherwise closes the open record. -/
def markShipAsPassed (mmsi : Nat) (now : Int) :
    Option (List ShipRecord) → Option (List ShipRecord)
  | none => none
  | some coll => some (markPassedUpdate mmsi now coll)

/-- The projected result shape returned by `getRecentShips`. -/
structure RecentShip where
  mmsi : Nat
  name : String
  direction : Option Int
  passedTime : Option Int
deriving DecidableEq, Repr

/-- Descending order on `passedBridgeTime` used by
`sort({ passedBridgeTime: -1 })`; in MongoDB's descending sort a missing /
null field orders after every concrete date. -/
def passedTimeDescLe (a b : ShipRecord) : Bool :=
  match a.passedBridgeTime, b.passedBridgeTime with
  | some x, some y => y ≤ x
  | some _, none => true
  | none, _ => false

/-- Insert a record into a list already sorted by `passedTimeDescLe`. -/
def insertDescByTime (r : ShipRecord) : List ShipRecord → List ShipRecord
  | [] => [r]
  | x :: xs => if passedTimeDescLe r x then r :: x :: xs else x :: insertDescByTime r xs

/-- Sort a collection by `passedBridgeTime` descending (insertion sort). -/
def sortDescByTime : List ShipRecord → List ShipRecord
  | [] => []
  | x :: xs => insertDescByTime x (sortDescByTime xs)

/-- The query inside `getRecentShips`: `find({ passedBridge: true })`,
`sort({ passedBridgeTime: -1 })`, `limit(limit)`, then the `map` projection. -/
def recentShipsQuery (limit : Nat) (coll : List ShipRecord) : List RecentShip :=
  (((sortDescByTime (coll.filter (fun r => r.passedBridge))).take limit).map
    (fun s => { mmsi := s.mmsi, name := s.name, direction := s.direction,
                passedTime := s.passedBridgeTime }))

/-- `getRecentShips(limit)`: returns `[]` when `shipsCollection` is `null`. -/
def getRecentShips (limit : Nat) : Option (List ShipRecord) → List RecentShip
  | none => []
  | some coll => recentShipsQuery limit coll

/-- The `{ total, today }` object returned by `getShipStats`. -/
structure StatsResult where
  total : Nat
  today : Nat
deriving DecidableEq, Repr

/-- The filter of the second `countDocuments` call in `getShipStats`:
`{ passedBridge: true, passedBridgeTime: { $gte: today } }`.  A document
whose `passedBridgeTime` is absent/null never satisfies a `$gte` date
comparison. -/
def passedTodayTest (startOfToday : Int) (r : ShipRecord) : Bool :=
  r.passedBridge &&
    (match r.passedBridgeTime with
     | some t => startOfToday ≤ t
     | none => false)

/-- The two `countDocuments` calls inside `getShipStats`.  `startOfToday`
stands for the JS value `today` after `today.setHours(0, 0, 0, 0)`: the
local calendar-day boundary at query time. -/
def shipStatsQuery (startOfToday : Int) (coll : List ShipRecord) : StatsResult :=
  { total := (coll.filter (fun r => r.passedBridge)).length
    today := (coll.filter (passedTodayTest startOfToday)).length }

/-- `getShipStats()`: returns `null` when `shipsCollection` is `null`. -/
def getShipStats (startOfToday : Int) :
    Option (List ShipRecord) → Option StatsResult
  | none => none
  | some coll => some (shipStatsQuery startOfToday coll)

/-- Number of open (`passedBridge = false`) records for a given MMSI in a
collection — the quantity the at-most-one-open-record invariant bounds. -/
def countOpen (mmsi : Nat) (coll : List ShipRecord) : Nat :=
  (coll.filter (openFilter mmsi)).length

/-- WebSocket `readyState` values used by the server (`WebSocket.OPEN` checks;
a freshly constructed socket is `CONNECTING`). -/
inductive ReadyState
  | CONNECTING
  | OPEN
deriving DecidableEq, Repr

/-- A `{ type: 'status', message, connected }` envelope as built at the
various `broadcastToClients` / `ws.send` sites. -/
structure StatusMsg where
  type : String
  message : String
  connected : Bool
deriving DecidableEq, Repr

/-- `{ type: 'status', message: 'Connected to proxy server', connected: true }`,
sent unconditionally to every newly connected client. -/
def proxyWelcomeMsg : StatusMsg :=
  { type := "status", message := "Connected to proxy server", connected := true }

/-- `{ type: 'status', message: 'AISStream active', connected: true }`, sent to
a newly connected client when the upstream socket is already OPEN. -/
def aisActiveMsg : StatusMsg :=
  { type := "status", message := "AISStream active", connected := true }

/-- Broadcast by the upstream `open` handler. -/
def connectedStatusMsg : StatusMsg :=
  { type := "status", message := "Connected to AISStream", connected := true }

/-- Broadcast by the upstream `error` handler. -/
def errorStatusMsg : StatusMsg :=
  { type := "status", message := "AISStream connection error", connected := false }

/-- Broadcast by the upstream `close` handler. -/
def disconnectedStatusMsg : StatusMsg :=
  { type := "status", message := "Disconnected from AISStream", connected := false }

/-- The server's module-level mutable state relevant to the upstream
connection lifecycle: `wss.clients.size`, the globals `isConnecting`,
`aisConnection` (with its readyState) and `reconnectTimeout` (whether a
reconnect timer is pending), plus two ghost fields: `liveTransports`
counts WebSocket objects created and not yet closed (to observe the
at-most-one-transport invariant even after the `aisConnection` variable is
overwritten), and `broadcasts` logs every status envelope passed to
`broadcastToClients`. -/
structure SrvState where
  clients : Nat
  isConnecting : Bool
  aisConnection : Option ReadyState
  reconnectTimeout : Bool
  liveTransports : Nat
  broadcasts : List StatusMsg
deriving DecidableEq, Repr

/-- The state at process start: no clients, no upstream connection, no timer. -/
def initState : SrvState :=
  { clients := 0, isConnecting := false, aisConnection := none,
    reconnectTimeout := false, liveTransports := 0, broadcasts := [] }

/-- `connectToAISStream()`: `if (isConnecting) return;` then sets
`isConnecting = true` and constructs a new WebSocket (readyState
CONNECTING), overwriting `aisConnection`. -/
def connectToAISStream (s : SrvState) : SrvState :=
  if s.isConnecting then s
  else
    { s with
      isConnecting := true
      aisConnection := some ReadyState.CONNECTING
      liveTransports := s.liveTransports + 1 }

/-- The upstream `open` handler: clears `isConnecting`, the socket becomes
OPEN, sends the subscription request, and broadcasts a connected status. -/
def onAisOpen (s : SrvState) : SrvState :=
  { s with
    isConnecting := false
    aisConnection := some ReadyState.OPEN
    broadcasts := s.broadcasts ++ [connectedStatusMsg] }

/-- The upstream `error` handler: clears `isConnecting` and broadcasts an
error status; it neither clears `aisConnection` nor schedules a reconnect. -/
def onAisError (s : SrvState) : SrvState :=
  { s with
    isConnecting := false
    broadcasts := s.broadcasts ++ [errorStatusMsg] }

/-- The upstream `close` handler: clears `isConnecting`, nulls
`aisConnection` (one transport is gone), broadcasts a disconnected status,
and unconditionally schedules the 5-second reconnect timer
(`reconnectTimeout = setTimeout(..., 5000)`). -/
def onAisClose (s : SrvState) : SrvState :=
  { s with
    isConnecting := false
    aisConnection := none
    liveTransports := s.liveTransports - 1
    broadcasts := s.broadcasts ++ [disconnectedStatusMsg]
    reconnectTimeout := true }

/-- The reconnect timer firing: the pending timer is consumed; the callback
runs `connectToAISStream()` only when `wss.clients.size > 0`, otherwise it
does nothing. -/
def onTimerFire (s : SrvState) : SrvState :=
  if s.reconnectTimeout then
    if 0 < s.clients then connectToAISStream { s with reconnectTimeout := false }
    else { s with reconnectTimeout := false }
  else s

/-- The `wss.on('connection')` handler: the client joins `wss.clients`, is
sent the welcome status; then `if (!aisConnection && !isConnecting)`
connect to AISStream, `else if (aisConnection && readyState === OPEN)` send
the new client an `AISStream active` status.  Returns the new state and
the list of status messages sent synchronously to the new client. -/
def onClientConnect (s : SrvState) : SrvState × List StatusMsg :=
  let s1 : SrvState := { s with clients := s.clients + 1 }
  if s1.aisConnection = none ∧ s1.isConnecting = false then
    (connectToAISStream s1, [proxyWelcomeMsg])
  else if s1.aisConnection = some ReadyState.OPEN then
    (s1, [proxyWelcomeMsg, aisActiveMsg])
  else (s1, [proxyWelcomeMsg])

/-- The per-client `ws.on('close')` handler: the client has left
`wss.clients`; when the count hits 0, `aisConnection.close()` is called and
the variable nulled (the transport stays live until its own close event),
and a pending reconnect timer is cleared. -/
def onClientDisconnect (s : SrvState) : SrvState :=
  let s1 : SrvState := { s with clients := s.clients - 1 }
  if s1.clients = 0 then
    let s2 : SrvState :=
      match s1.aisConnection with
      | some _ => { s1 with aisConnection := none }
      | none => s1
    if s2.reconnectTimeout then { s2 with reconnectTimeout := false } else s2
  else s1

/-- The externally visible events driving the server state. -/
inductive Ev
  | clientConnect
  | clientDisconnect
  | aisOpen
  | aisError
  | aisClose
  | timerFire
deriving DecidableEq, Repr

/-- One event step of the server. -/
def step (s : SrvState) : Ev → SrvState
  | Ev.clientConnect => (onClientConnect s).1
  | Ev.clientDisconnect => onClientDisconnect s
  | Ev.aisOpen => onAisOpen s
  | Ev.aisError => onAisError s
  | Ev.aisClose => onAisClose s
  | Ev.timerFire => onTimerFire s

/-- Run a trace of events from a state. -/
def run (s : SrvState) (evs : List Ev) : SrvState :=
  evs.foldl step s

/-- A downstream client as seen by `broadcastToClients`: its place in
`wss.clients`, its `readyState`, and whether an attempted send would fail
at the transport level (the `ws` library reports such failures
asynchronously via the client's `error` event; the server's handler for it
only logs). -/
structure Client where
  id : Nat
  readyState : ReadyState
  sendFails : Bool
deriving DecidableEq, Repr

/-- The two envelope shapes passed to `broadcastToClients`. -/
inductive Envelope
  | status (m : StatusMsg)
  | shipData (payload : String)
deriving DecidableEq, Repr

/-- `JSON.stringify(message)` modelled as an injective rendering. -/
def serializeEnvelope : Envelope → String
  | Envelope.status m => "status|" ++ m.message ++ "|" ++ toString m.connected
  | Envelope.shipData p => "ship_data|" ++ p

/-- `broadcastToClients(message)`: serializes once (`const data =
JSON.stringify(message)`) and, for each client in `wss.clients` whose
`readyState` is OPEN, calls `client.send(data)`.  Returns the client set
after the call (the function never mutates it) together with the list of
send attempts `(client id, serialized data)`. -/
def broadcastToClients (message : Envelope) (clients : List Client) :
    List Client × List (Nat × String) :=
  let data := serializeEnvelope message
  (clients,
    clients.filterMap
      (fun c => if c.readyState = ReadyState.OPEN then some (c.id, data) else none))

/-- Overwrite a client's transport-failure flag (used to state that the
fan-out is unaffected by whether any client's send would fail). -/
def setFail (b : Bool) (c : Client) : Client :=
  { c with sendFails := b }

/-! ### Helper lemmas about the store operations -/

theorem updateOne_of_no_match (filter : ShipRecord → Bool) (upd : ShipRecord → ShipRecord)
    (ins : Option ShipRecord) (coll : List ShipRecord)
    (h : ∀ r ∈ coll, filter r = false) :
    updateOne filter upd ins coll = coll ++ ins.toList := by
  induction coll with
  | nil => simp [updateOne]
  | cons r rs ih =>
      have hr : filter r = false := h r (by simp)
      simp [updateOne, hr, ih (fun x hx => h x (by simp [hx]))]

theorem updateOne_first_match (filter : ShipRecord → Bool) (upd : ShipRecord → ShipRecord)
    (ins : Option ShipRecord) (pre post : List ShipRecord) (r : ShipRecord)
    (hpre : ∀ x ∈ pre, filter x = false) (hr : filter r = true) :
    updateOne filter upd ins (pre ++ r :: post) = pre ++ upd r :: post := by
  induction pre with
  | nil => simp [updateOne, hr]
  | cons x xs ih =>
      have hx : filter x = false := hpre x (by simp)
      simp [updateOne, hx, ih (fun y hy => hpre y (by simp [hy]))]

theorem openFilter_applySetUpdate (m : Nat) (sd : ShipData) (now : Int) (r : ShipRecord) :
    openFilter m (applySetUpdate sd now r) = openFilter m r := rfl

theorem openFilter_setPassedUpdate (m : Nat) (now : Int) (r : ShipRecord) :
    openFilter m (setPassedUpdate now r) = false := by
  simp [openFilter, setPassedUpdate]

theorem countOpen_eq_zero_iff (m : Nat) (coll : List ShipRecord) :
    countOpen m coll = 0 ↔ ∀ r ∈ coll, openFilter m r = false := by
  simp [countOpen, List.length_eq_zero, List.filter_eq_nil_iff, Bool.not_eq_true]

theorem countOpen_saveShipUpdate (sd : ShipData) (now : Int) (m : Nat)
    (coll : List ShipRecord) :
    countOpen m (saveShipUpdate sd now coll) =
      if m = sd.mmsi then max (countOpen m coll) 1 else countOpen m coll := by
  induction coll with
  | nil =>
      by_cases hm : m = sd.mmsi
      · subst hm
        simp [saveShipUpdate, updateOne, countOpen, openFilter, insertDoc,
          applySetUpdate, mkShipRecord]
      · simp [saveShipUpdate, updateOne, countOpen, openFilter, insertDoc,
          applySetUpdate, mkShipRecord, Ne.symm hm, hm]
  | cons r rs ih =>
      rw [saveShipUpdate] at ih ⊢
      rw [updateOne]
      by_cases hf : openFilter sd.mmsi r
      · rw [if_pos hf]
        by_cases hm : m = sd.mmsi
        · subst hm
          simp [countOpen, List.filter_cons, openFilter_applySetUpdate, hf]
        · rw [if_neg hm]
          simp only [countOpen, List.filter_cons, openFilter_applySetUpdate]
          rcases Bool.eq_false_or_eq_true (openFilter m r) with h2 | h2 <;> simp [h2]
      · rw [if_neg hf]
        by_cases hm : m = sd.mmsi
        · subst hm
          have hzero : openFilter sd.mmsi r = false := by simpa using hf
          simp only [countOpen, List.filter_cons, hzero] at ih ⊢
          simpa using ih
        · simp only [countOpen, List.filter_cons] at ih ⊢
          rw [if_neg hm] at ih
          cases hor : openFilter m r <;> simp [hor, ih, hm]

theorem countOpen_markPassedUpdate (i : Nat) (now : Int) (m : Nat)
    (coll : List ShipRecord) :
    countOpen m (markPassedUpdate i now coll) =
      if m = i then countOpen m coll - 1 else countOpen m coll := by
  induction coll with
  | nil => simp [markPassedUpdate, updateOne, countOpen]
  | cons r rs ih =>
      rw [markPassedUpdate] at ih ⊢
      rw [updateOne]
      by_cases hf : openFilter i r
      · rw [if_pos hf]
        have hparts : r.mmsi = i ∧ r.passedBridge = false := by
          simpa [openFilter] using hf
        by_cases hm : m = i
        · subst hm
          simp only [countOpen, List.filter_cons, openFilter_setPassedUpdate, hf,
            List.length_cons]
          simp
        · have hr : openFilter m r = false := by
            simp [openFilter, hparts.1, Ne.symm hm]
          simp [countOpen, List.filter_cons, openFilter_setPassedUpdate, hr, hm]
      · rw [if_neg hf]
        by_cases hm : m = i
        · subst hm
          have hzero : openFilter m r = false := by simpa using hf
          simp only [countOpen, List.filter_cons, hzero] at ih ⊢
          simpa using ih
        · simp only [countOpen, List.filter_cons] at ih ⊢
          rw [if_neg hm] at ih
          cases hor : openFilter m r <;> simp [hor, ih, hm]

theorem markPassedUpdate_noop (i : Nat) (now : Int) (coll : List ShipRecord)
    (h : countOpen i coll = 0) : markPassedUpdate i now coll = coll := by
  rw [markPassedUpdate,
    updateOne_of_no_match _ _ _ coll ((countOpen_eq_zero_iff i coll).1 h)]
  simp

/-! ### Concrete fixtures -/

/-- A position report for MMSI 7 with speed 10. -/
def sd10 : ShipData :=
  { mmsi := 7, name := "A", type := some "Cargo", destination := none,
    dimensions := none, speed := some 10, direction := none }

/-- The same vessel's next report, with speed 3. -/
def sd3 : ShipData :=
  { sd10 with speed := some 3 }

/-- An open record for MMSI 7 with `maxSpeed = 10`. -/
def openRec7 : ShipRecord :=
  { mmsi := 7, name := "A", type := "Cargo", destination := none,
    dimensions := none, firstSeen := 0, lastSeen := 0, direction := none,
    maxSpeed := 10, passedBridge := false, passedBridgeTime := none }

/-- An open record whose destination was unknown when it was created. -/
def recNoDest : ShipRecord := openRec7

/-- A later report for the same vessel that supplies a destination. -/
def sdWithDest : ShipData :=
  { sd3 with destination := some "DULUTH" }

/-- Stats scenario (claim C10): two records passed today, one passed
yesterday, and one still-open record; the day boundary is 100. -/
def rToday1 : ShipRecord :=
  { openRec7 with mmsi := 1, passedBridge := true, passedBridgeTime := some 150 }

/-- Second record passed today (exactly at the day boundary). -/
def rToday2 : ShipRecord :=
  { openRec7 with mmsi := 2, passedBridge := true, passedBridgeTime := some 100 }

/-- Record passed yesterday (before the day boundary). -/
def rYesterday : ShipRecord :=
  { openRec7 with mmsi := 3, passedBridge := true, passedBridgeTime := some 50 }

/-- The collection for the stats scenario. -/
def scenarioColl : List ShipRecord := [rToday1, rToday2, rYesterday, openRec7]

/-! ### Claim theorems: transit tracker -/

/-- Claim C1 (code bug).  The `$set` clause of `saveShipToDatabase` computes
`maxSpeed: Math.max(shipData.speed || 0, shipRecord.maxSpeed)`, but
`shipRecord` is the freshly built object whose `maxSpeed` is itself
`shipData.speed || 0`, not the previously stored value; so an update
overwrites the stored maximum with the latest report's speed.  Concretely:
observing speed 10 and then speed 3 for the same open record leaves
`maxSpeed = 3`, while the claim (and the evident intent of the field name
and the `Math.max` call) requires `max 10 3 = 10`. -/
theorem C1_maxSpeed_overwritten :
    (saveShipUpdate sd10 0 []).map (fun r => r.maxSpeed) = [10] ∧
      (saveShipUpdate sd3 5 (saveShipUpdate sd10 0 [])).map (fun r => r.maxSpeed) = [3] := by
  constructor <;> rfl

/-- Claim C2 (confirmed).  The number of open records per MMSI: `observe`
(the upsert of `saveShipToDatabase`) leaves `countOpen` unchanged for every
other MMSI and for the report's own MMSI either creates exactly one open
record (when none existed) or updates the existing one in place
(`max c 1 = c` for `c ≥ 1`), never creating a second; `markShipAsPassed`
only ever closes (at most) one open record.  Hence a store with at most one
open record per MMSI keeps that invariant under any sequence of operations. -/
theorem C2_single_open_record (sd : ShipData) (i m : Nat) (now now2 : Int)
    (coll : List ShipRecord) :
    countOpen m (saveShipUpdate sd now coll) =
        (if m = sd.mmsi then max (countOpen m coll) 1 else countOpen m coll) ∧
      countOpen m (markPassedUpdate i now2 coll) =
        (if m = i then countOpen m coll - 1 else countOpen m coll) :=
  ⟨countOpen_saveShipUpdate sd now m coll, countOpen_markPassedUpdate i now2 m coll⟩

/-- Claim C7 (confirmed).  `markShipAsPassed(mmsi)` is a no-op when the store
has no open record for that MMSI; when one exists (the first match of the
`{ mmsi, passedBridge: false }` filter) it receives `passedBridge = true`
and `passedBridgeTime = now` with every other record untouched; and when
the store had at most one open record for the MMSI, a second call (at any
later time `now2`) changes nothing, so the first call's `passedBridgeTime`
is retained. -/
theorem C7_markPassed (mmsi : Nat) (now now2 : Int) (coll pre post : List ShipRecord)
    (r : ShipRecord) :
    (countOpen mmsi coll = 0 → markPassedUpdate mmsi now coll = coll) ∧
      ((∀ x ∈ pre, openFilter mmsi x = false) → openFilter mmsi r = true →
        markPassedUpdate mmsi now (pre ++ r :: post) =
          pre ++ setPassedUpdate now r :: post) ∧
      (countOpen mmsi coll ≤ 1 →
        markPassedUpdate mmsi now2 (markPassedUpdate mmsi now coll) =
          markPassedUpdate mmsi now coll) := by
  refine ⟨markPassedUpdate_noop mmsi now coll, ?_, ?_⟩
  · intro hpre hr
    exact updateOne_first_match _ _ _ pre post r hpre hr
  · intro h1
    apply markPassedUpdate_noop
    rw [countOpen_markPassedUpdate]
    simp
    omega

/-- Witness for C7 at a concrete store: the empty store is unchanged; a
store holding one open record for MMSI 7 has exactly that record closed
with `passedBridgeTime = 5`; and a second call at time 9 changes nothing. -/
theorem C7_markPassed_witness :
    markPassedUpdate 7 5 [] = [] ∧
      markPassedUpdate 7 5 [openRec7] = [setPassedUpdate 5 openRec7] ∧
      markPassedUpdate 7 9 (markPassedUpdate 7 5 [openRec7]) =
        markPassedUpdate 7 5 [openRec7] :=
  ⟨(C7_markPassed 7 5 9 [] [] [] openRec7).1 (by decide),
   (C7_markPassed 7 5 9 [] [] [] openRec7).2.1 (by simp) (by decide),
   (C7_markPassed 7 5 9 [openRec7] [] [] openRec7).2.2 (by decide)⟩

/-- Claim C8's fill-in clause, stated as the claim says it: a later report
that supplies a destination for an open record whose destination is still
unknown results in the record carrying that destination. -/
def fillsUnknownField : Prop :=
  ∀ (sd : ShipData) (r : ShipRecord) (now : Int) (d : String),
    r.passedBridge = false → r.mmsi = sd.mmsi → r.destination = none →
      sd.destination = some d →
      ∀ r2 ∈ saveShipUpdate sd now [r], r2.destination = some d

/-- Claim C8 (corrected), counterexample.  The update path of
`saveShipToDatabase` `$set`s only `lastSeen`, `direction` and `maxSpeed`;
`destination` (like every other static field) lives only in `$setOnInsert`,
so a previously-unknown destination is never filled in by a later report:
with `recNoDest.destination = none` and a report carrying
`destination = some "DULUTH"`, the updated record's destination is still
`none`. -/
theorem C8_fill_counterexample : ¬ fillsUnknownField := by
  intro h
  have h2 := h sdWithDest recNoDest 5 "DULUTH" rfl rfl rfl rfl
    (applySetUpdate sdWithDest 5 recNoDest) (by decide)
  exact absurd h2 (by decide)

/-- Claim C8 (corrected, amended part proved).  On an update of an open
record (the first match of the open filter), `saveShipToDatabase` applies
only the `$set` clause, which never touches the static fields: `name`,
`type`, `destination` and `dimensions` of the updated record equal those of
the old record — they are neither overwritten nor filled in; static fields
are written only when a record is inserted. -/
theorem C8_static_fields (sd : ShipData) (now : Int) (pre post : List ShipRecord)
    (r : ShipRecord) :
    ((∀ x ∈ pre, openFilter sd.mmsi x = false) → openFilter sd.mmsi r = true →
        saveShipUpdate sd now (pre ++ r :: post) =
          pre ++ applySetUpdate sd now r :: post) ∧
      (applySetUpdate sd now r).name = r.name ∧
      (applySetUpdate sd now r).type = r.type ∧
      (applySetUpdate sd now r).destination = r.destination ∧
      (applySetUpdate sd now r).dimensions = r.dimensions := by
  refine ⟨?_, rfl, rfl, rfl, rfl⟩
  intro hpre hr
  exact updateOne_first_match _ _ _ pre post r hpre hr

/-- Witness for C8 at a concrete store: the update of `recNoDest` by
`sdWithDest` is exactly `applySetUpdate`, and its destination is unchanged. -/
theorem C8_static_fields_witness :
    saveShipUpdate sdWithDest 5 [recNoDest] = [applySetUpdate sdWithDest 5 recNoDest] ∧
      (applySetUpdate sdWithDest 5 recNoDest).destination = recNoDest.destination :=
  ⟨(C8_static_fields sdWithDest 5 [] [] recNoDest).1 (by simp) (by decide),
   (C8_static_fields sdWithDest 5 [] [] recNoDest).2.2.2.1⟩

/-- Claim C9 (confirmed).  With no collection attached (`shipsCollection`
null — the store is `none`), every tracker operation hits the
`if (!shipsCollection) return …` guard and degrades to a no-op returning
its empty/default result: `saveShipToDatabase` and `markShipAsPassed`
leave the (absent) store untouched, `getRecentShips` returns `[]` and
`getShipStats` returns `null`; each operation is a total function, and the
JS bodies additionally wrap every store call in `try`/`catch`, so nothing
escapes into the message-processing path. -/
theorem C9_store_unavailable (sd : ShipData) (i : Nat) (now b : Int) (lim : Nat) :
    saveShipToDatabase sd now none = none ∧
      markShipAsPassed i now none = none ∧
      getRecentShips lim none = [] ∧
      getShipStats b none = none :=
  ⟨rfl, rfl, rfl, rfl⟩

theorem countToday_le_countPassed (b : Int) (coll : List ShipRecord) :
    (coll.filter (passedTodayTest b)).length ≤
      (coll.filter (fun r => r.passedBridge)).length := by
  induction coll with
  | nil => simp
  | cons r rs ih =>
      by_cases hp : r.passedBridge = true
      · rcases Bool.eq_false_or_eq_true (passedTodayTest b r) with ht | ht <;>
          simp [List.filter_cons, hp, ht] <;> omega
      · have ht : passedTodayTest b r = false := by
          simp [passedTodayTest, Bool.eq_false_iff.2 hp]
        simp [List.filter_cons, Bool.eq_false_iff.2 hp, ht, ih]

/-- Claim C10 (confirmed).  `getShipStats` counts `total` as all records with
`passedBridge = true` (irrespective of date) and `today` as those whose
`passedBridgeTime` is on or after the day boundary (`$gte`), so
`today ≤ total` always; on the scenario collection — two records passed on
or after the boundary 100, one passed before it, one record still open —
it returns `{ total := 3, today := 2 }`. -/
theorem C10_stats (b : Int) (coll : List ShipRecord) :
    (shipStatsQuery b coll).today ≤ (shipStatsQuery b coll).total ∧
      getShipStats 100 (some scenarioColl) =
        some { total := 3, today := 2 } :=
  ⟨countToday_le_countPassed b coll, by decide⟩

/-! ### Claim theorems: broadcast hub and upstream lifecycle -/

/-- A ship-data envelope used as a concrete broadcast payload. -/
def env0 : Envelope := Envelope.shipData "pos"

/-- An OPEN subscriber whose transport-level send would fail. -/
def c0fail : Client := { id := 0, readyState := ReadyState.OPEN, sendFails := true }

/-- A healthy OPEN subscriber. -/
def c1ok : Client := { id := 1, readyState := ReadyState.OPEN, sendFails := false }

/-- Claim C3's removal clause, stated as the claim says it: a subscriber
whose send fails is removed from the live set by `broadcast`. -/
def removesFailingSubscriber : Prop :=
  ∀ (m : Envelope) (cs : List Client) (c : Client),
    c ∈ cs → c.sendFails = true → c ∉ (broadcastToClients m cs).1

/-- Claim C3 (corrected), counterexample.  `broadcastToClients` contains no
error handling and never mutates `wss.clients`: after broadcasting to a set
containing a failing subscriber, that subscriber is still in the set (the
per-client `error` handler in the source only logs; removal happens only
when the client connection closes). -/
theorem C3_no_removal_counterexample : ¬ removesFailingSubscriber := by
  intro h
  exact h env0 [c0fail, c1ok] c0fail (by decide) rfl (by decide)

/-- Claim C3 (corrected, amended part proved).  `broadcastToClients`
serializes the message once and attempts one send per subscriber whose
`readyState` is OPEN: the subscriber set is returned unchanged, every OPEN
subscriber receives a send attempt carrying the one serialized payload,
every send attempt carries exactly that payload, and the fan-out is
unaffected by which subscribers' sends would fail (`ws` surfaces send
failures asynchronously, so a failing subscriber cannot abort the loop). -/
theorem C3_fanout (m : Envelope) (cs : List Client) (b : Bool) :
    (broadcastToClients m cs).1 = cs ∧
      (∀ c ∈ cs, c.readyState = ReadyState.OPEN →
        (c.id, serializeEnvelope m) ∈ (broadcastToClients m cs).2) ∧
      (∀ d ∈ (broadcastToClients m cs).2, d.2 = serializeEnvelope m) ∧
      (broadcastToClients m (cs.map (setFail b))).2 = (broadcastToClients m cs).2 := by
  refine ⟨rfl, ?_, ?_, ?_⟩
  · intro c hc hopen
    simp only [broadcastToClients, List.mem_filterMap]
    exact ⟨c, hc, by simp [hopen]⟩
  · intro d hd
    simp only [broadcastToClients, List.mem_filterMap] at hd
    obtain ⟨c, _, heq⟩ := hd
    by_cases hopen : c.readyState = ReadyState.OPEN
    · rw [if_pos hopen] at heq
      cases heq
      rfl
    · rw [if_neg hopen] at heq
      cases heq
  · simp only [broadcastToClients, List.filterMap_map]
    rfl

/-- Witness for C3 at a concrete subscriber set containing one failing and
one healthy OPEN subscriber: the set is unchanged and the healthy
subscriber receives the serialized payload. -/
theorem C3_fanout_witness :
    (broadcastToClients env0 [c0fail, c1ok]).1 = [c0fail, c1ok] ∧
      (c1ok.id, serializeEnvelope env0) ∈ (broadcastToClients env0 [c0fail, c1ok]).2 :=
  ⟨(C3_fanout env0 [c0fail, c1ok] true).1,
   (C3_fanout env0 [c0fail, c1ok] true).2.1 c1ok (by decide) rfl⟩

/-- The server state after one client connects, the upstream opens, and that
client disconnects again: zero subscribers, upstream transport closing. -/
def s4 : SrvState :=
  run initState [Ev.clientConnect, Ev.aisOpen, Ev.clientDisconnect]

/-- Claim C4's schedule-time condition, stated as the claim says it: the
reconnect timer is scheduled at disconnect time only if at least one
subscriber is currently registered. -/
def reconnectOnlyWhenSubscribed : Prop :=
  ∀ s : SrvState, s.clients = 0 → (onAisClose s).reconnectTimeout = false

/-- Claim C4 (corrected), counterexample.  The upstream `close` handler
schedules the 5-second reconnect timer unconditionally
(`reconnectTimeout = setTimeout(..., 5000)`): in the reachable state `s4`
with zero subscribers, the close event still leaves a pending timer. -/
theorem C4_schedule_counterexample : ¬ reconnectOnlyWhenSubscribed := by
  intro h
  have h2 := h s4 (by decide)
  exact absurd h2 (by decide)

/-- Claim C4 (corrected, amended part proved).  On upstream close the client
transitions to Disconnected (`aisConnection = null`, `isConnecting =
false`), broadcasts a `connected: false` status, and always schedules a
single reconnect timer; on upstream error it broadcasts a
`connected: false` status; the subscriber-count check happens only at fire
time: when the timer fires with zero subscribers, the pending timer is
consumed and no connection attempt is made. -/
theorem C4_close_reconnect (s : SrvState) :
    (onAisClose s).aisConnection = none ∧
      (onAisClose s).isConnecting = false ∧
      (onAisClose s).reconnectTimeout = true ∧
      (onAisClose s).broadcasts = s.broadcasts ++ [disconnectedStatusMsg] ∧
      disconnectedStatusMsg.connected = false ∧
      (onAisError s).broadcasts = s.broadcasts ++ [errorStatusMsg] ∧
      errorStatusMsg.connected = false ∧
      (s.clients = 0 →
        onTimerFire (onAisClose s) = { onAisClose s with reconnectTimeout := false }) := by
  refine ⟨rfl, rfl, rfl, rfl, rfl, rfl, rfl, ?_⟩
  intro h0
  simp [onTimerFire, onAisClose, h0]

/-- Witness for C4 at the concrete zero-subscriber state `s4`: the timer
fires after the close, and no reconnect attempt is made. -/
theorem C4_close_reconnect_witness :
    onTimerFire (onAisClose s4) = { onAisClose s4 with reconnectTimeout := false } :=
  (C4_close_reconnect s4).2.2.2.2.2.2.2 (by decide)

/-- The trace exhibiting the double-transport bug: a client connects and the
upstream opens; the upstream drops (scheduling the 5-second reconnect
timer); a second client connects, which reconnects immediately and the new
transport opens; then the still-pending timer fires. -/
def c5trace : List Ev :=
  [Ev.clientConnect, Ev.aisOpen, Ev.aisClose, Ev.clientConnect, Ev.aisOpen]

/-- Claim C5 (code bug).  `connectToAISStream` is guarded only by
`isConnecting`, not by an existing open connection, and the reconnect-timer
callback checks only `wss.clients.size > 0`.  Along `c5trace` the state has
one OPEN transport and a still-pending reconnect timer; when that timer
fires, `connectToAISStream` runs with `isConnecting == false` and opens a
second WebSocket while the first is still OPEN — two live upstream
transports, contradicting the invariant (the call-site guard
`!aisConnection && !isConnecting` in the connection handler shows the
intent that no second transport be opened). -/
theorem C5_double_transport :
    (run initState c5trace).aisConnection = some ReadyState.OPEN ∧
      (run initState c5trace).isConnecting = false ∧
      (run initState c5trace).liveTransports = 1 ∧
      (run initState c5trace).reconnectTimeout = true ∧
      (run initState (c5trace ++ [Ev.timerFire])).liveTransports = 2 :=
  ⟨rfl, rfl, rfl, rfl, rfl⟩

/-- Claim C6's content, stated as the claim says it: every status message
sent synchronously to a newly registered subscriber indicates
not-yet-connected (`connected = false`) whenever the upstream is not Open. -/
def registrationStatusReflectsUpstream : Prop :=
  ∀ s : SrvState, s.aisConnection ≠ some ReadyState.OPEN →
    ∀ m ∈ (onClientConnect s).2, m.connected = false

/-- Claim C6 (corrected), counterexample.  The connection handler always
sends the welcome status `{ message: 'Connected to proxy server',
connected: true }` first: at `initState` (upstream disconnected) the new
subscriber's only status message says `connected: true`, not "not yet
connected". -/
theorem C6_reflect_counterexample : ¬ registrationStatusReflectsUpstream := by
  intro h
  have h2 := h initState (by decide) proxyWelcomeMsg (by decide)
  exact absurd h2 (by decide)

/-- Claim C6 (corrected, amended part proved).  A newly registered
subscriber always synchronously receives the welcome status (about the
proxy connection itself, `connected: true`); the upstream state is
reflected only by a second `AISStream active` status, sent exactly when the
upstream socket is OPEN at registration time — when it is not Open, no
status describing the upstream is sent at all. -/
theorem C6_register_status (s : SrvState) :
    (onClientConnect s).2 =
        proxyWelcomeMsg ::
          (if s.aisConnection = some ReadyState.OPEN then [aisActiveMsg] else []) ∧
      proxyWelcomeMsg.connected = true ∧ aisActiveMsg.connected = true := by
  refine ⟨?_, rfl, rfl⟩
  rcases h : s.aisConnection with _ | st
  · simp only [onClientConnect, h]
    by_cases hc : s.isConnecting <;> simp [hc]
  · cases st <;> simp [onClientConnect, h]

end ShipTracker
